import Mathlib

/-!
Verification development for the filmections connection-group discovery and
verification pipeline.

The definitions below are a shallow embedding of the TypeScript sources:
  * `src/src/services/VerificationEngine.ts`  (class VerificationEngine)
  * `DeterministicDiscoverer` (class DeterministicDiscoverer)
  * `src/src/services/GroupGenerator.ts`      (class GroupGenerator and the
    Claude client helpers validateGroups / verifyAIGroups in the same file)
  * `src/src/services/AIGroupGenerator.ts`    (class AIGroupGenerator)

Modelling conventions:
  * JavaScript numbers that are always integral ids / counts / years are Nat.
  * `release_date` strings are represented by the parsed year
    (`new Date(film.release_date).getFullYear()` in the source).
  * JavaScript `Map` accumulation (insertion-ordered keys, per-key pushed
    lists) is modelled by an insertion-ordered key list (`uniqueKeys`) plus a
    filter of the pool for each key, which yields exactly the same per-key
    film lists in the same order.
  * `String.prototype.toLowerCase` is modelled per character (ASCII) and
    `String.prototype.includes` as contiguous-sublist containment.
  * JavaScript regular expressions (`new RegExp(pattern, "i")`) are external
    to the repository; they are modelled by an abstract `RegexOracle` whose
    `compile` returns `none` exactly when the pattern is syntactically
    invalid (the `catch` branch of the source) and otherwise the compiled
    test function.
  * `Date.now()` timestamps (`verifiedAt`) are wall-clock and are omitted.
-/

/-! ## Data model (src/src/types/index.ts) -/

/-- A cast credit: `credits.cast` entry `{id, name, character, order}`. -/
structure CastEntry where
  personId : Nat
  name : String
  character : String
  order : Nat
deriving DecidableEq, Repr

/-- A crew credit: `credits.crew` entry `{id, name, job, department}`. -/
structure CrewEntry where
  personId : Nat
  name : String
  job : String
  department : String
deriving DecidableEq, Repr

/-- A genre record `{id, name}`. -/
structure GenreEntry where
  id : Nat
  name : String
deriving DecidableEq, Repr

/-- `TMDBMovieDetails`: the film record consumed by the pipeline.
    `releaseYear` stands for the year parsed from `release_date`. -/
structure TMDBMovieDetails where
  id : Nat
  title : String
  releaseYear : Nat
  posterPath : Option String := none
  genreIds : List Nat := []
  overview : String := ""
  voteCount : Nat := 0
  popularity : Nat := 0
  genres : List GenreEntry := []
  cast : List CastEntry := []
  crew : List CrewEntry := []
deriving DecidableEq, Repr

/-- The game-facing `Film` shape `{id, title, year, poster_path}`. -/
structure Film where
  id : Nat
  title : String
  year : Nat
  posterPath : Option String := none
deriving DecidableEq, Repr

/-! ## String helpers (models of the JavaScript string operations used) -/

/-- Model of `String.prototype.toLowerCase` (per-character ASCII lowering). -/
def lowerString (s : String) : String :=
  String.mk (s.data.map Char.toLower)

/-- Model of `big.includes(small)`: `small` occurs contiguously in `big`. -/
def strIncludes (big small : String) : Bool :=
  big.data.tails.any (fun t => small.data.isPrefixOf t)

/-- A single-quote character as a string (used in connection-text matching). -/
def singleQuote : String := String.mk [Char.ofNat 39]

/-! ## VerificationEngine (src/src/services/VerificationEngine.ts) -/

/-- The `VerificationType` union. -/
inductive VerificationType where
  | overviewKeywords
  | titleContains
  | titlePattern
  | genreIncludes
  | director
  | actor
  | decade
  | yearRange
deriving DecidableEq, Repr

/-- The `VerificationParams` interface: every field optional. -/
structure VerificationParams where
  keywords : Option (List String) := none
  requireAll : Option Bool := none
  substring : Option String := none
  pattern : Option String := none
  genreId : Option Nat := none
  personId : Option Nat := none
  decade : Option Nat := none
  minYear : Option Nat := none
  maxYear : Option Nat := none
deriving DecidableEq, Repr

/-- `FilmVerificationResult`. -/
structure FilmVerificationResult where
  filmId : Nat
  filmTitle : String
  passed : Bool
  reason : Option String := none
deriving DecidableEq, Repr

/-- `VerificationResult` (`verifiedAt` omitted: wall-clock). -/
structure VerificationResult where
  valid : Bool
  filmResults : List FilmVerificationResult
  issues : List String
deriving DecidableEq, Repr

/-- Abstract model of the JavaScript regular-expression facility:
    `compile p` is `none` when `new RegExp(p, "i")` throws (syntactically
    invalid pattern) and otherwise `some t` where `t title` models
    `regex.test(title)`. -/
structure RegexOracle where
  compile : String → Option (String → Bool)

/-- An oracle under which every pattern fails to compile (used to
    instantiate theorems at concrete inputs that never reach the regex). -/
def noRegex : RegexOracle := ⟨fun _ => none⟩

/-- The `filmId`/`filmTitle` base of a per-film result. -/
def baseResult (film : TMDBMovieDetails) : FilmVerificationResult :=
  { filmId := film.id, filmTitle := film.title, passed := false }

/-- `verifyOverviewKeywords`. -/
def verifyOverviewKeywords (film : TMDBMovieDetails) (params : VerificationParams) :
    FilmVerificationResult :=
  let keywords := params.keywords.getD []
  let requireAll := params.requireAll.getD false
  if keywords.length = 0 then
    { (baseResult film) with
      passed := false
      reason := some "No keywords provided" }
  else
    let overview := lowerString film.overview
    if requireAll then
      let missingKeywords := keywords.filter (fun kw => !(strIncludes overview (lowerString kw)))
      if missingKeywords.length = 0 then
        { (baseResult film) with passed := true }
      else
        { (baseResult film) with
      passed := false
      reason := some ("Overview missing keywords: " ++ String.intercalate ", " missingKeywords) }
    else
      match keywords.find? (fun kw => strIncludes overview (lowerString kw)) with
      | some _ => { (baseResult film) with passed := true }
      | none =>
        { (baseResult film) with
      passed := false
      reason := some ("Overview doesn" ++ singleQuote ++ "t contain any of: "
            ++ String.intercalate ", " keywords) }

/-- `verifyTitleContains`. A missing or empty substring is falsy in the
    source (`if (!substring)`). -/
def verifyTitleContains (film : TMDBMovieDetails) (params : VerificationParams) :
    FilmVerificationResult :=
  match params.substring with
  | none => { (baseResult film) with
      passed := false
      reason := some "No substring provided" }
  | some substring =>
    if substring = "" then
      { (baseResult film) with
      passed := false
      reason := some "No substring provided" }
    else
      let passed := strIncludes (lowerString film.title) (lowerString substring)
      { (baseResult film) with
      passed := passed
      reason := if passed then none
          else some ("Title doesn" ++ singleQuote ++ "t contain \"" ++ substring ++ "\"") }

/-- `verifyTitlePattern`: the `try { new RegExp(pattern, "i") } catch` block
    is modelled by the oracle; `compile = none` is the catch branch. -/
def verifyTitlePattern (O : RegexOracle) (film : TMDBMovieDetails)
    (params : VerificationParams) : FilmVerificationResult :=
  match params.pattern with
  | none => { (baseResult film) with
      passed := false
      reason := some "No pattern provided" }
  | some pattern =>
    if pattern = "" then
      { (baseResult film) with
      passed := false
      reason := some "No pattern provided" }
    else
      match O.compile pattern with
      | some test =>
        let passed := test film.title
        { (baseResult film) with
      passed := passed
      reason := if passed then none
            else some ("Title doesn" ++ singleQuote ++ "t match pattern \"" ++ pattern ++ "\"") }
      | none =>
        { (baseResult film) with
      passed := false
      reason := some ("Invalid regex pattern: " ++ pattern) }

/-- `verifyGenre`. -/
def verifyGenre (film : TMDBMovieDetails) (params : VerificationParams) :
    FilmVerificationResult :=
  match params.genreId with
  | none => { (baseResult film) with
      passed := false
      reason := some "No genre ID provided" }
  | some genreId =>
    let passed := film.genres.any (fun g => g.id == genreId)
    { (baseResult film) with
      passed := passed
      reason := if passed then none
        else some ("Film doesn" ++ singleQuote ++ "t have genre ID " ++ toString genreId) }

/-- `verifyDirector`. -/
def verifyDirector (film : TMDBMovieDetails) (params : VerificationParams) :
    FilmVerificationResult :=
  match params.personId with
  | none => { (baseResult film) with
      passed := false
      reason := some "No person ID provided" }
  | some personId =>
    let passed := film.crew.any (fun c => c.job == "Director" && c.personId == personId)
    { (baseResult film) with
      passed := passed
      reason := if passed then none
        else some ("Film doesn" ++ singleQuote ++ "t have director with ID " ++ toString personId) }

/-- `verifyActor`. -/
def verifyActor (film : TMDBMovieDetails) (params : VerificationParams) :
    FilmVerificationResult :=
  match params.personId with
  | none => { (baseResult film) with
      passed := false
      reason := some "No person ID provided" }
  | some personId =>
    let passed := film.cast.any (fun a => a.personId == personId)
    { (baseResult film) with
      passed := passed
      reason := if passed then none
        else some ("Film doesn" ++ singleQuote ++ "t have actor with ID " ++ toString personId) }

/-- `verifyDecade`: film decade is `floor(year / 10) * 10`. -/
def verifyDecade (film : TMDBMovieDetails) (params : VerificationParams) :
    FilmVerificationResult :=
  match params.decade with
  | none => { (baseResult film) with
      passed := false
      reason := some "No decade provided" }
  | some decade =>
    let filmDecade := film.releaseYear / 10 * 10
    let passed := filmDecade == decade
    { (baseResult film) with
      passed := passed
      reason := if passed then none
        else some ("Film is from " ++ toString filmDecade ++ "s, not " ++ toString decade ++ "s") }

/-- The `minYear || "?"` display fallback of the source. -/
def yearOrQuestionMark (o : Option Nat) : String :=
  match o with
  | some n => if n = 0 then "?" else toString n
  | none => "?"

/-- `verifyYearRange`. -/
def verifyYearRange (film : TMDBMovieDetails) (params : VerificationParams) :
    FilmVerificationResult :=
  if params.minYear = none ∧ params.maxYear = none then
    { (baseResult film) with
      passed := false
      reason := some "No year range provided" }
  else
    let passesMin := params.minYear.elim true (fun m => film.releaseYear ≥ m)
    let passesMax := params.maxYear.elim true (fun m => film.releaseYear ≤ m)
    let passed := passesMin && passesMax
    { (baseResult film) with
      passed := passed
      reason := if passed then none
        else some ("Film year " ++ toString film.releaseYear ++ " is outside range "
          ++ yearOrQuestionMark params.minYear ++ "-" ++ yearOrQuestionMark params.maxYear) }

/-- `verifyFilm`: dispatch on the verification type. -/
def verifyFilm (O : RegexOracle) (film : TMDBMovieDetails) (type : VerificationType)
    (params : VerificationParams) : FilmVerificationResult :=
  match type with
  | .overviewKeywords => verifyOverviewKeywords film params
  | .titleContains => verifyTitleContains film params
  | .titlePattern => verifyTitlePattern O film params
  | .genreIncludes => verifyGenre film params
  | .director => verifyDirector film params
  | .actor => verifyActor film params
  | .decade => verifyDecade film params
  | .yearRange => verifyYearRange film params

/-- The issue message pushed for a failing film:
    `"${film.title}" does not match: ${result.reason || connection}`. -/
def issueMessage (connection : String) (r : FilmVerificationResult) : String :=
  "\"" ++ r.filmTitle ++ "\" does not match: " ++ (r.reason.getD connection)

/-- `VerificationEngine.verify`: per-film results, issue list for failures,
    aggregate `valid` iff there are no issues. -/
def verify (O : RegexOracle) (connection : String) (verificationType : VerificationType)
    (params : VerificationParams) (films : List TMDBMovieDetails) : VerificationResult :=
  let filmResults := films.map (fun film => verifyFilm O film verificationType params)
  let issues := filmResults.filterMap
    (fun r => if r.passed then none else some (issueMessage connection r))
  { valid := issues.length == 0, filmResults := filmResults, issues := issues }

/-! ## DeterministicDiscoverer -/

/-- `ConnectionCategory` (ConnectionTypeRegistry). -/
inductive ConnectionCategory where
  | thematic
  | title
  | setting
  | plot
  | crew
  | cast
deriving DecidableEq, Repr

/-- `DiscoveredGroup`. -/
structure DiscoveredGroup where
  films : List TMDBMovieDetails
  connectionType : String
  connectionValue : String
  category : ConnectionCategory
  verificationType : VerificationType
  verificationParams : VerificationParams
deriving DecidableEq, Repr

/-- The fixed `TITLE_PATTERNS` catalogue, keyed by pattern category. -/
def TITLE_PATTERNS : List (String × List String) :=
  [("colors", ["red", "blue", "black", "white", "green", "gold", "silver", "yellow",
      "pink", "purple", "orange", "grey", "gray"]),
   ("numbers", ["one", "two", "three", "four", "five", "six", "seven", "eight", "nine",
      "ten", "eleven", "twelve", "thirteen", "hundred", "thousand", "million",
      "1", "2", "3", "4", "5", "6", "7", "8", "9", "0"]),
   ("animals", ["dog", "cat", "bird", "wolf", "lion", "tiger", "bear", "snake", "horse",
      "dragon", "shark", "fish", "crow", "swan", "eagle", "hawk", "fox", "rabbit",
      "deer", "monkey", "ape", "spider", "bat"]),
   ("bodyParts", ["head", "hand", "heart", "eye", "eyes", "blood", "bone", "face",
      "finger", "arm", "leg", "brain"]),
   ("timeWords", ["night", "day", "midnight", "dawn", "dusk", "morning", "evening",
      "yesterday", "tomorrow", "forever", "eternal"]),
   ("deathWords", ["dead", "death", "die", "kill", "murder", "ghost", "zombie"])]

/-- Append a key if it is not already present: one `Map.set` /
    push-if-absent step of the source's map building, key side. -/
def insertUnique (l : List Nat) (x : Nat) : List Nat :=
  if x ∈ l then l else l ++ [x]

/-- The insertion-ordered list of distinct keys produced by iterating
    `Map.set` over `l` (JavaScript `Map` keeps keys in insertion order). -/
def uniqueKeys (l : List Nat) : List Nat :=
  l.foldl insertUnique []

/-- First-occurrence dedup of films by id: models the
    `!existing.films.some((f) => f.id === film.id)` push guard. -/
def dedupByFilmId (films : List TMDBMovieDetails) : List TMDBMovieDetails :=
  films.foldl (fun acc f => if acc.any (fun g => g.id == f.id) then acc else acc ++ [f]) []

/-- Fuel-driven core of `chunkIntoGroups`; the fuel only bounds the number of
    loop iterations (each iteration consumes `groupSize ≥ 1` films, so
    `films.length` fuel is always enough). -/
def chunkGo (groupSize : Nat) : Nat → List TMDBMovieDetails → List (List TMDBMovieDetails)
  | 0, _ => []
  | fuel + 1, l =>
    if groupSize ≤ l.length ∧ 0 < groupSize then
      l.take groupSize :: chunkGo groupSize fuel (l.drop groupSize)
    else []

/-- `chunkIntoGroups(films, groupSize)`: consecutive chunks of exactly
    `groupSize` films, the remainder (fewer than `groupSize`) dropped. -/
def chunkIntoGroups (films : List TMDBMovieDetails) (groupSize : Nat) :
    List (List TMDBMovieDetails) :=
  chunkGo groupSize films.length films

/-- `film.credits?.crew?.find((c) => c.job === "Director")`. -/
def directorEntry (film : TMDBMovieDetails) : Option CrewEntry :=
  film.crew.find? (fun c => c.job == "Director")

/-- The film's director id, when it has one. -/
def directorIdOf (film : TMDBMovieDetails) : Option Nat :=
  (directorEntry film).map CrewEntry.personId

/-- The per-key film list of the director map: films are pushed in pool
    order, so the list for key `d` is exactly the pool filtered to films
    whose director id is `d`. -/
def directorFilms (films : List TMDBMovieDetails) (d : Nat) : List TMDBMovieDetails :=
  films.filter (fun f => directorIdOf f == some d)

/-- The name recorded for key `d`: the director name of the first film
    inserted under `d`. -/
def directorName (films : List TMDBMovieDetails) (d : Nat) : String :=
  (((directorFilms films d).head?.bind directorEntry).map CrewEntry.name).getD ""

/-- `findDirectorGroups`. -/
def findDirectorGroups (films : List TMDBMovieDetails) : List DiscoveredGroup :=
  (uniqueKeys (films.filterMap directorIdOf)).flatMap (fun d =>
    (chunkIntoGroups (directorFilms films d) 4).map (fun groupFilms =>
      { films := groupFilms
        connectionType := "director"
        connectionValue := directorName films d
        category := ConnectionCategory.crew
        verificationType := VerificationType.director
        verificationParams := { personId := some d } }))

/-- `film.credits?.cast?.filter((a) => a.order < TOP_BILLING_THRESHOLD)`
    with the threshold fixed at 5. -/
def topActors (film : TMDBMovieDetails) : List CastEntry :=
  film.cast.filter (fun a => a.order < 5)

/-- Whether some top-billed cast entry of the film has person id `a`. -/
def filmHasTopActor (film : TMDBMovieDetails) (a : Nat) : Bool :=
  (topActors film).any (fun c => c.personId == a)

/-- The per-key film list of the actor map: pool order, first occurrence of
    each film id kept (the source's duplicate-film guard). -/
def actorFilms (films : List TMDBMovieDetails) (a : Nat) : List TMDBMovieDetails :=
  dedupByFilmId (films.filter (fun f => filmHasTopActor f a))

/-- The name recorded for actor key `a`: the name on the first top-billed
    cast entry with id `a` of the first film containing one. -/
def actorName (films : List TMDBMovieDetails) (a : Nat) : String :=
  (((films.filterMap (fun f => (topActors f).find? (fun c => c.personId == a))).head?).map
    CastEntry.name).getD ""

/-- `findActorGroups`. -/
def findActorGroups (films : List TMDBMovieDetails) : List DiscoveredGroup :=
  (uniqueKeys (films.flatMap (fun f => (topActors f).map CastEntry.personId))).flatMap (fun a =>
    (chunkIntoGroups (actorFilms films a) 4).map (fun groupFilms =>
      { films := groupFilms
        connectionType := "actor"
        connectionValue := actorName films a
        category := ConnectionCategory.cast
        verificationType := VerificationType.actor
        verificationParams := { personId := some a } }))

/-- `formatPatternName`. -/
def formatPatternName (patternType word : String) : String :=
  let label :=
    if patternType = "colors" then "Color"
    else if patternType = "numbers" then "Number"
    else if patternType = "animals" then "Animal"
    else if patternType = "bodyParts" then "Body part"
    else if patternType = "timeWords" then "Time word"
    else if patternType = "deathWords" then "Death word"
    else "Word"
  label ++ " \"" ++ word ++ "\" in title"

/-- `matchingFilms` of `findTitlePatternGroups`: films whose lowercased
    title contains the lowercased word. -/
def titleMatchingFilms (films : List TMDBMovieDetails) (word : String) :
    List TMDBMovieDetails :=
  films.filter (fun f => strIncludes (lowerString f.title) (lowerString word))

/-- `findTitlePatternGroups`. -/
def findTitlePatternGroups (films : List TMDBMovieDetails) : List DiscoveredGroup :=
  TITLE_PATTERNS.flatMap (fun pt =>
    pt.2.flatMap (fun word =>
      if 4 ≤ (titleMatchingFilms films word).length then
        (chunkIntoGroups (titleMatchingFilms films word) 4).map (fun groupFilms =>
          { films := groupFilms
            connectionType := "title-" ++ pt.1
            connectionValue := formatPatternName pt.1 word
            category := ConnectionCategory.title
            verificationType := VerificationType.titleContains
            verificationParams := { substring := some word } })
      else []))

/-- `film.genres?.[0]`: the primary (first-listed) genre. -/
def primaryGenre (film : TMDBMovieDetails) : Option GenreEntry :=
  film.genres.head?

/-- The film's primary genre id, when it has one. -/
def primaryGenreIdOf (film : TMDBMovieDetails) : Option Nat :=
  (primaryGenre film).map GenreEntry.id

/-- The per-key film list of the genre map. -/
def genreFilms (films : List TMDBMovieDetails) (gid : Nat) : List TMDBMovieDetails :=
  films.filter (fun f => primaryGenreIdOf f == some gid)

/-- The name recorded for genre key `gid`. -/
def genreName (films : List TMDBMovieDetails) (gid : Nat) : String :=
  (((genreFilms films gid).head?.bind primaryGenre).map GenreEntry.name).getD ""

/-- `findGenreGroups`. -/
def findGenreGroups (films : List TMDBMovieDetails) : List DiscoveredGroup :=
  (uniqueKeys (films.filterMap primaryGenreIdOf)).flatMap (fun gid =>
    if 4 ≤ (genreFilms films gid).length then
      (chunkIntoGroups (genreFilms films gid) 4).map (fun groupFilms =>
        { films := groupFilms
          connectionType := "genre"
          connectionValue := genreName films gid
          category := ConnectionCategory.plot
          verificationType := VerificationType.genreIncludes
          verificationParams := { genreId := some gid } })
    else [])

/-! ## GroupGenerator (src/src/services/GroupGenerator.ts) -/

/-- `AnalyzerResult` (shape used by `GroupGenerator` and its tests:
    `{films, connection, connectionType, difficultyScore}`). -/
structure AnalyzerResult where
  films : List TMDBMovieDetails
  connection : String
  connectionType : String
  difficultyScore : Nat
deriving DecidableEq, Repr

/-- `DifficultyLevel`. -/
inductive DifficultyLevel where
  | easy
  | medium
  | hard
  | hardest
deriving DecidableEq, Repr

/-- `DifficultyColor`. -/
inductive DifficultyColor where
  | yellow
  | green
  | blue
  | purple
deriving DecidableEq, Repr

/-- `GeneratedGroup` (GroupGenerator variant). -/
structure GeneratedGroup where
  films : List Film
  connection : String
  connectionType : String
  difficultyScore : Nat
  difficulty : DifficultyLevel
  color : DifficultyColor
deriving DecidableEq, Repr

/-- `GroupGenerationResult`. -/
structure GroupGenerationResult where
  groups : List GeneratedGroup
  totalFound : Nat
  filteredCount : Nat
deriving DecidableEq, Repr

/-- `MoviePoolFilter`. -/
structure MoviePoolFilter where
  minYear : Option Nat := none
  maxYear : Option Nat := none
  minVoteCount : Option Nat := none
  maxVoteCount : Option Nat := none
  minPopularity : Option Nat := none
  allowedGenres : Option (List Nat) := none
  excludedGenres : Option (List Nat) := none
deriving DecidableEq, Repr

/-- `GroupGeneratorConfig` (the fields `generateGroups` reads). -/
structure GroupGeneratorConfig where
  maxGroupsPerBatch : Nat := 50
  poolFilters : Option MoviePoolFilter := none
deriving DecidableEq, Repr

/-- JavaScript truthiness of an optional number (`0` and absence are falsy). -/
def truthyNum (o : Option Nat) : Bool :=
  o.getD 0 != 0

/-- The per-movie predicate of `applyPoolFilters`. -/
def passesPoolFilter (pf : MoviePoolFilter) (movie : TMDBMovieDetails) : Bool :=
  if truthyNum pf.minYear && decide (movie.releaseYear < pf.minYear.getD 0) then false
  else if truthyNum pf.maxYear && decide (pf.maxYear.getD 0 < movie.releaseYear) then false
  else if truthyNum pf.minVoteCount && decide (movie.voteCount < pf.minVoteCount.getD 0) then
    false
  else if truthyNum pf.maxVoteCount && decide (pf.maxVoteCount.getD 0 < movie.voteCount) then
    false
  else if truthyNum pf.minPopularity && decide (movie.popularity < pf.minPopularity.getD 0) then
    false
  else
    let movieGenres := movie.genreIds
    match pf.allowedGenres with
    | some allowed =>
      if allowed.length ≠ 0 && !(movieGenres.any (fun g => allowed.contains g)) then false
      else
        match pf.excludedGenres with
        | some excluded =>
          !(excluded.length ≠ 0 && movieGenres.any (fun g => excluded.contains g))
        | none => true
    | none =>
      match pf.excludedGenres with
      | some excluded =>
        !(excluded.length ≠ 0 && movieGenres.any (fun g => excluded.contains g))
      | none => true

/-- `applyPoolFilters`. -/
def applyPoolFilters (poolFilters : Option MoviePoolFilter)
    (movies : List TMDBMovieDetails) : List TMDBMovieDetails :=
  match poolFilters with
  | none => movies
  | some pf => movies.filter (passesPoolFilter pf)

/-- The sorted film-id fingerprint of a group
    (`group.films.map((f) => f.id).sort(...)`; the `join(",")` of distinct
    decimal renderings is injective, so the sorted list itself serves as the
    fingerprint). -/
def sortedFilmIds (g : AnalyzerResult) : List Nat :=
  List.insertionSort (· ≤ ·) (g.films.map TMDBMovieDetails.id)

/-- The film ids of a group (unsorted). -/
def filmIdsOf (g : AnalyzerResult) : List Nat :=
  g.films.map TMDBMovieDetails.id

/-- The shared-id count of `deduplicateByFilms`: distinct candidate ids that
    are also ids of the accepted group. -/
def sharedIdCount (candidateIds acceptedIds : List Nat) : Nat :=
  (candidateIds.dedup.filter (fun i => acceptedIds.contains i)).length

/-- One acceptance step of `deduplicateByFilms` over state
    (accepted groups, seen fingerprints). -/
def dedupStep (st : List AnalyzerResult × List (List Nat)) (group : AnalyzerResult) :
    List AnalyzerResult × List (List Nat) :=
  let filmIds := sortedFilmIds group
  if filmIds ∈ st.2 then st
  else if st.1.any (fun acceptedGroup =>
      3 ≤ sharedIdCount filmIds (filmIdsOf acceptedGroup)) then st
  else (st.1 ++ [group], st.2 ++ [filmIds])

/-- `deduplicateByFilms`: greedy accumulation in input order. -/
def deduplicateByFilms (groups : List AnalyzerResult) : List AnalyzerResult :=
  (groups.foldl dedupStep ([], [])).1

/-- `calculateDifficulty`: quartile score bands. -/
def calculateDifficulty (score : Nat) : DifficultyLevel × DifficultyColor :=
  if score ≤ 3000 then (DifficultyLevel.easy, DifficultyColor.yellow)
  else if score ≤ 6000 then (DifficultyLevel.medium, DifficultyColor.green)
  else if score ≤ 8000 then (DifficultyLevel.hard, DifficultyColor.blue)
  else (DifficultyLevel.hardest, DifficultyColor.purple)

/-- `tmdbToFilm`. -/
def tmdbToFilm (movie : TMDBMovieDetails) : Film :=
  { id := movie.id, title := movie.title, year := movie.releaseYear,
    posterPath := movie.posterPath }

/-- `analyzerResultToGroup`. -/
def analyzerResultToGroup (result : AnalyzerResult) : GeneratedGroup :=
  let dc := calculateDifficulty result.difficultyScore
  { films := result.films.map tmdbToFilm
    connection := result.connection
    connectionType := result.connectionType
    difficultyScore := result.difficultyScore
    difficulty := dc.1
    color := dc.2 }

/-- The two fatal conditions of `generateGroups`. -/
inductive GenerateGroupsError where
  | poolTooSmall (size : Nat)
  | noAnalyzers
deriving DecidableEq, Repr

/-- `GroupGenerator.generateGroups`.

    Modelled from the spec: the runtime analyzer registry
    (`analyzerRegistry.getEnabled()`, whose implementation under
    `src/lib/puzzle-engine` is not part of the sources) is represented, as
    the spec's design notes prescribe, by an explicit list of analyzer
    functions `pool -> AnalyzerResult[]` passed per call; the list is empty
    exactly when no analyzer is registered and enabled. Everything else
    follows `GroupGenerator.ts` line by line. -/
def generateGroups (config : GroupGeneratorConfig)
    (analyzers : List (List TMDBMovieDetails → List AnalyzerResult))
    (moviePool : List TMDBMovieDetails)
    (recentConnections : Option (List String)) :
    Except GenerateGroupsError GroupGenerationResult :=
  let filteredPool := applyPoolFilters config.poolFilters moviePool
  if filteredPool.length < 20 then
    Except.error (GenerateGroupsError.poolTooSmall filteredPool.length)
  else if analyzers.length = 0 then
    Except.error GenerateGroupsError.noAnalyzers
  else
    let allResults := analyzers.map (fun analyzer => analyzer filteredPool)
    let potentialGroups := allResults.flatten
    let totalFound := potentialGroups.length
    let remaining :=
      match recentConnections with
      | some recent =>
        if 0 < recent.length then
          potentialGroups.filter (fun group => !(recent.contains group.connection))
        else potentialGroups
      | none => potentialGroups
    let deduplicatedGroups := deduplicateByFilms remaining
    let groups := (deduplicatedGroups.take config.maxGroupsPerBatch).map analyzerResultToGroup
    Except.ok
      { groups := groups
        totalFound := totalFound
        filteredCount := totalFound - deduplicatedGroups.length }

/-! ## AIGroupGenerator (src/src/services/AIGroupGenerator.ts) and the
    Claude-client verification helpers (same file as GroupGenerator.ts) -/

/-- `MovieForAI` (aiGroupPrompt): the slimmed-down film record sent to the
    external suggestion generator. -/
structure MovieForAI where
  id : Nat
  title : String
  year : Nat
  overview : String
  director : Option String
  cast : List String
deriving DecidableEq, Repr

/-- `AIGroupGenerator.prepareMoviesForAI`. -/
def prepareMoviesForAI (movies : List TMDBMovieDetails) : List MovieForAI :=
  movies.map (fun movie =>
    { id := movie.id
      title := movie.title
      year := movie.releaseYear
      overview := movie.overview
      director := (movie.crew.find? (fun c => c.job == "Director")).map CrewEntry.name
      cast := (movie.cast.take 5).map CastEntry.name })

/-- `AIGroupResponse`: an externally-suggested candidate group. The
    structure is the union of the two source interfaces of this name
    (`AIGroupGenerator.ts` adds `category`, the Claude client adds
    `verified` / `verificationIssues`); each function reads only the fields
    its own interface declares. Indices are `Int` because the source guards
    against negative indices explicitly. -/
structure AIGroupResponse where
  connection : String
  filmIndices : List Int
  difficulty : DifficultyLevel
  explanation : String
  verificationType : Option VerificationType := none
  verificationParams : Option VerificationParams := none
  category : Option ConnectionCategory := none
  verified : Option Bool := none
  verificationIssues : Option (List String) := none
deriving DecidableEq, Repr

/-- `DIFFICULTY_TO_COLOR`. -/
def DIFFICULTY_TO_COLOR (d : DifficultyLevel) : DifficultyColor :=
  match d with
  | .easy => .yellow
  | .medium => .green
  | .hard => .blue
  | .hardest => .purple

/-- `DIFFICULTY_TO_SCORE`. -/
def DIFFICULTY_TO_SCORE (d : DifficultyLevel) : Nat :=
  match d with
  | .easy => 2000
  | .medium => 5000
  | .hard => 7000
  | .hardest => 9000

/-- `GeneratedGroup` (AIGroupGenerator variant, with provenance fields). -/
structure AIGeneratedGroup where
  films : List Film
  connection : String
  connectionType : String
  category : Option ConnectionCategory := none
  difficultyScore : Nat
  difficulty : DifficultyLevel
  color : DifficultyColor
  explanation : Option String := none
  verified : Option Bool := none
  verificationIssues : Option (List String) := none
deriving DecidableEq, Repr

/-- Model of the `/\d{4}s/` test: four consecutive decimal digits followed
    by the letter `s` somewhere in the string. -/
def hasDecadeDigits (s : String) : Bool :=
  s.data.tails.any (fun t =>
    match t with
    | c1 :: c2 :: c3 :: c4 :: c5 :: _ =>
      c1.isDigit && c2.isDigit && c3.isDigit && c4.isDigit && (c5 == 's')
    | _ => false)

/-- `AIGroupGenerator.inferConnectionType`. -/
def inferConnectionType (connection : String) : String :=
  let lower := lowerString connection
  if strIncludes lower "directed by" || strIncludes lower "director" then "director"
  else if strIncludes lower "starring" || strIncludes lower "featuring"
      || strIncludes lower "actor" then "actor"
  else if strIncludes lower "decade" || strIncludes lower (singleQuote ++ "s")
      || hasDecadeDigits connection then "decade"
  else if strIncludes lower "genre" || strIncludes lower "horror"
      || strIncludes lower "comedy" then "genre"
  else "thematic"

/-- Safe positional lookup used to model `array[i]` under an `Int` index
    (the source only indexes after checking `i >= 0 && i < length`). -/
def movieAt (movies : List MovieForAI) (i : Int) : Option MovieForAI :=
  if i < 0 then none else movies[i.toNat]?

/-- Safe positional lookup into the full-detail pool. -/
def detailAt (movies : List TMDBMovieDetails) (i : Int) : Option TMDBMovieDetails :=
  if i < 0 then none else movies[i.toNat]?

/-- The index filter of `processAIResponse`:
    `i >= 0 && i < moviesForAI.length && !usedFilmIds.has(moviesForAI[i].id)`. -/
def validIndex (moviesForAI : List MovieForAI) (usedFilmIds : List Nat) (i : Int) : Bool :=
  decide (0 ≤ i) && decide (i < (moviesForAI.length : Int)) &&
    (match movieAt moviesForAI i with
     | some m => !(usedFilmIds.contains m.id)
     | none => false)

/-- The mutable state threaded through `processAIResponse`. -/
structure ProcessState where
  usedFilmIds : List Nat
  validGroups : List AIGeneratedGroup
  verificationRejected : Nat
deriving Repr

/-- The `Film` record built from a pool movie inside `processAIResponse`. -/
def movieToFilm (movie : TMDBMovieDetails) : Film :=
  { id := movie.id, title := movie.title, year := movie.releaseYear,
    posterPath := movie.posterPath }

/-- One iteration of the `processAIResponse` loop for a single suggestion. -/
def processStep (O : RegexOracle) (moviesForAI : List MovieForAI)
    (originalMovies : List TMDBMovieDetails) (st : ProcessState)
    (aiGroup : AIGroupResponse) : ProcessState :=
  let validIndices := aiGroup.filmIndices.filter (validIndex moviesForAI st.usedFilmIds)
  if validIndices.length ≠ 4 then st
  else
    let movieDetailsForGroup := validIndices.filterMap (detailAt originalMovies)
    match aiGroup.verificationType, aiGroup.verificationParams with
    | some vt, some vp =>
      let result := verify O aiGroup.connection vt vp movieDetailsForGroup
      if result.valid = false then
        { st with verificationRejected := st.verificationRejected + 1 }
      else
        let films := validIndices.filterMap
          (fun i => (detailAt originalMovies i).map movieToFilm)
        let newIds := validIndices.filterMap
          (fun i => (detailAt originalMovies i).map TMDBMovieDetails.id)
        { usedFilmIds := st.usedFilmIds ++ newIds
          validGroups := st.validGroups ++
            [{ films := films
               connection := aiGroup.connection
               connectionType := inferConnectionType aiGroup.connection
               category := aiGroup.category
               difficultyScore := DIFFICULTY_TO_SCORE aiGroup.difficulty
               difficulty := aiGroup.difficulty
               color := DIFFICULTY_TO_COLOR aiGroup.difficulty
               explanation := some aiGroup.explanation
               verified := some true }]
          verificationRejected := st.verificationRejected }
    | _, _ =>
      { st with verificationRejected := st.verificationRejected + 1 }

/-- `AIGroupGenerator.processAIResponse`: fold the step over the suggestions
    starting from an empty used-id set. -/
def processAIResponse (O : RegexOracle) (aiGroups : List AIGroupResponse)
    (moviesForAI : List MovieForAI) (originalMovies : List TMDBMovieDetails) :
    ProcessState :=
  aiGroups.foldl (processStep O moviesForAI originalMovies)
    { usedFilmIds := [], validGroups := [], verificationRejected := 0 }

/-- One iteration of the Claude-client `verifyAIGroups` loop (the file
    `GroupGenerator.ts` appends this helper after the class): state is
    (groups kept so far, filteredCount). -/
def verifyAIGroupsStep (O : RegexOracle) (movieDetails : List TMDBMovieDetails)
    (st : List AIGroupResponse × Nat) (group : AIGroupResponse) :
    List AIGroupResponse × Nat :=
  let films := group.filmIndices.filterMap (detailAt movieDetails)
  if films.length ≠ 4 then (st.1, st.2 + 1)
  else
    match group.verificationType, group.verificationParams with
    | some vt, some vp =>
      let result := verify O group.connection vt vp films
      if result.valid then ((st.1 ++ [{ group with verified := some true }]), st.2)
      else (st.1, st.2 + 1)
    | _, _ =>
      ((st.1 ++ [{ group with
          verified := some false
          verificationIssues := some ["No verification params provided"] }]), st.2)

/-- The Claude-client `verifyAIGroups`. -/
def verifyAIGroups (O : RegexOracle) (groups : List AIGroupResponse)
    (movieDetails : List TMDBMovieDetails) : List AIGroupResponse × Nat :=
  groups.foldl (verifyAIGroupsStep O movieDetails) ([], 0)

/-! ## Helper lemmas -/

theorem mem_foldl_insertUnique (l acc : List Nat) (x : Nat) :
    x ∈ l.foldl insertUnique acc ↔ x ∈ acc ∨ x ∈ l := by
  induction l generalizing acc with
  | nil => simp
  | cons y ys ih =>
    simp only [List.foldl_cons, ih, insertUnique, List.mem_cons]
    by_cases hy : y ∈ acc
    · simp only [hy, if_pos]
      constructor
      · rintro (h | h)
        · exact Or.inl h
        · exact Or.inr (Or.inr h)
      · rintro (h | h | h)
        · exact Or.inl h
        · exact Or.inl (h ▸ hy)
        · exact Or.inr h
    · simp only [hy, if_neg, not_false_iff, List.mem_append, List.mem_singleton]
      tauto

theorem nodup_foldl_insertUnique (l : List Nat) (acc : List Nat) (h : acc.Nodup) :
    (l.foldl insertUnique acc).Nodup := by
  induction l generalizing acc with
  | nil => exact h
  | cons y ys ih =>
    simp only [List.foldl_cons]
    apply ih
    unfold insertUnique
    by_cases hy : y ∈ acc
    · simpa [hy] using h
    · simp only [hy, if_neg, not_false_iff]
      simpa [List.nodup_append] using ⟨h, hy⟩

theorem mem_uniqueKeys (l : List Nat) (x : Nat) : x ∈ uniqueKeys l ↔ x ∈ l := by
  simpa using mem_foldl_insertUnique l [] x

theorem nodup_uniqueKeys (l : List Nat) : (uniqueKeys l).Nodup :=
  nodup_foldl_insertUnique l [] List.nodup_nil

theorem mem_chunkGo_length (k fuel : Nat) (l : List TMDBMovieDetails)
    (g : List TMDBMovieDetails) (hg : g ∈ chunkGo k fuel l) : g.length = k := by
  induction fuel generalizing l with
  | zero => simp [chunkGo] at hg
  | succ n ih =>
    unfold chunkGo at hg
    by_cases hcond : k ≤ l.length ∧ 0 < k
    · rw [if_pos hcond] at hg
      rcases List.mem_cons.mp hg with h | h
      · rw [h]; exact List.length_take_of_le hcond.1
      · exact ih _ h
    · rw [if_neg hcond] at hg
      cases hg

theorem mem_chunkGo_subset (k fuel : Nat) (l : List TMDBMovieDetails)
    (g : List TMDBMovieDetails) (hg : g ∈ chunkGo k fuel l) : ∀ x ∈ g, x ∈ l := by
  induction fuel generalizing l with
  | zero => simp [chunkGo] at hg
  | succ n ih =>
    unfold chunkGo at hg
    by_cases hcond : k ≤ l.length ∧ 0 < k
    · rw [if_pos hcond] at hg
      rcases List.mem_cons.mp hg with h | h
      · intro x hx
        exact List.take_subset k l (h ▸ hx)
      · intro x hx
        exact List.drop_subset k l (ih _ h x hx)
    · rw [if_neg hcond] at hg
      cases hg

theorem chunkGo_length (k fuel : Nat) (l : List TMDBMovieDetails)
    (hk : 0 < k) (hf : l.length ≤ fuel) :
    (chunkGo k fuel l).length = l.length / k := by
  induction fuel generalizing l with
  | zero =>
    have h0 : l.length = 0 := Nat.le_zero.mp hf
    simp [chunkGo, h0]
  | succ n ih =>
    unfold chunkGo
    by_cases hcond : k ≤ l.length ∧ 0 < k
    · rw [if_pos hcond, List.length_cons]
      have hd : (l.drop k).length ≤ n := by
        rw [List.length_drop]
        omega
      rw [ih _ hd, List.length_drop]
      rw [Nat.div_eq l.length k, if_pos ⟨hk, hcond.1⟩]
    · rw [if_neg hcond]
      have hlt : l.length < k := by
        rcases Nat.lt_or_ge l.length k with h | h
        · exact h
        · exact absurd ⟨h, hk⟩ hcond
      simp [Nat.div_eq_of_lt hlt]

theorem chunkIntoGroups_length (l : List TMDBMovieDetails) (k : Nat) (hk : 0 < k) :
    (chunkIntoGroups l k).length = l.length / k :=
  chunkGo_length k l.length l hk (Nat.le_refl _)

theorem mem_chunkIntoGroups_length (l : List TMDBMovieDetails) (k : Nat)
    (g : List TMDBMovieDetails) (hg : g ∈ chunkIntoGroups l k) : g.length = k :=
  mem_chunkGo_length k l.length l g hg

theorem mem_chunkIntoGroups_subset (l : List TMDBMovieDetails) (k : Nat)
    (g : List TMDBMovieDetails) (hg : g ∈ chunkIntoGroups l k) : ∀ x ∈ g, x ∈ l :=
  mem_chunkGo_subset k l.length l g hg

theorem mem_dedupByFilmId (l : List TMDBMovieDetails) :
    ∀ f ∈ dedupByFilmId l, f ∈ l := by
  unfold dedupByFilmId
  suffices h : ∀ acc : List TMDBMovieDetails,
      ∀ f ∈ l.foldl
        (fun acc f => if acc.any (fun g => g.id == f.id) then acc else acc ++ [f]) acc,
      f ∈ acc ∨ f ∈ l by
    intro f hf
    rcases h [] f hf with h' | h'
    · cases h'
    · exact h'
  induction l with
  | nil => intro acc f hf; exact Or.inl hf
  | cons y ys ih =>
    intro acc f hf
    simp only [List.foldl_cons] at hf
    rcases ih _ f hf with h' | h'
    · by_cases hy : acc.any (fun g => g.id == y.id)
      · rw [if_pos hy] at h'
        exact Or.inl h'
      · rw [if_neg hy] at h'
        rcases List.mem_append.mp h' with h'' | h''
        · exact Or.inl h''
        · exact Or.inr (List.mem_cons.mpr (Or.inl (List.mem_singleton.mp h'')))
    · exact Or.inr (List.mem_cons.mpr (Or.inr h'))

theorem verify_valid_of_passed (O : RegexOracle) (connection : String)
    (vt : VerificationType) (params : VerificationParams)
    (films : List TMDBMovieDetails)
    (h : ∀ f ∈ films, (verifyFilm O f vt params).passed = true) :
    (verify O connection vt params films).valid = true
    ∧ ∀ r ∈ (verify O connection vt params films).filmResults, r.passed = true := by
  constructor
  · simp only [verify]
    have hnil : (films.map (fun film => verifyFilm O film vt params)).filterMap
        (fun r => if r.passed then none
          else some (issueMessage connection r)) = [] := by
      rw [List.filterMap_eq_nil_iff]
      intro r hr
      rcases List.mem_map.mp hr with ⟨f, hf, rfl⟩
      simp [h f hf]
    simp [hnil]
  · intro r hr
    simp only [verify] at hr
    rcases List.mem_map.mp hr with ⟨f, hf, rfl⟩
    exact h f hf

/-! ## Claim theorems -/

/-- C9: `VerificationEngine.verify` on an empty film list returns
    `valid = true` with empty `filmResults` and empty `issues`, for every
    connection text, verification type and params (including params that
    would fail every film): group validity is vacuous without films. -/
theorem verify_empty_films_vacuous (O : RegexOracle) (connection : String)
    (verificationType : VerificationType) (params : VerificationParams) :
    verify O connection verificationType params [] =
      { valid := true, filmResults := [], issues := [] } := rfl

/-- C7: decade verification passes a film iff `floor(releaseYear/10)*10`
    equals the decade parameter; at the boundary, release year 1989 passes
    for decade 1980 and fails for decade 1990. -/
theorem decade_verification_floor (O : RegexOracle) (film : TMDBMovieDetails) (d : Nat) :
    ((verifyFilm O film .decade { decade := some d }).passed = true
      ↔ film.releaseYear / 10 * 10 = d)
    ∧ (verifyFilm noRegex { id := 100, title := "Boundary", releaseYear := 1989 }
        .decade { decade := some 1980 }).passed = true
    ∧ (verifyFilm noRegex { id := 100, title := "Boundary", releaseYear := 1989 }
        .decade { decade := some 1990 }).passed = false := by
  refine ⟨?_, by decide, by decide⟩
  simp [verifyFilm, verifyDecade, beq_iff_eq]

/-- C8: for a nonempty group and a syntactically invalid regular-expression
    pattern (the oracle's compile fails; an invalid pattern is necessarily
    nonempty, since the empty pattern compiles), title-pattern verification
    does not throw: every film fails with a reason naming the invalid
    pattern and the aggregate result is invalid. -/
theorem title_pattern_invalid_regex (O : RegexOracle) (connection pattern : String)
    (films : List TMDBMovieDetails) (hcompile : O.compile pattern = none)
    (hpattern : pattern ≠ "") (hne : films ≠ []) :
    (verify O connection .titlePattern { pattern := some pattern } films).valid = false
    ∧ ∀ r ∈ (verify O connection .titlePattern { pattern := some pattern } films).filmResults,
        r.passed = false ∧ r.reason = some ("Invalid regex pattern: " ++ pattern) := by
  have hfr : ∀ f : TMDBMovieDetails,
      verifyFilm O f .titlePattern { pattern := some pattern } =
        { filmId := f.id, filmTitle := f.title, passed := false,
          reason := some ("Invalid regex pattern: " ++ pattern) } := by
    intro f
    simp [verifyFilm, verifyTitlePattern, hpattern, hcompile, baseResult]
  constructor
  · cases films with
    | nil => exact absurd rfl hne
    | cons f rest =>
      simp [verify, hfr, issueMessage]
  · intro r hr
    simp only [verify] at hr
    rcases List.mem_map.mp hr with ⟨f, hf, rfl⟩
    rw [hfr f]
    exact ⟨rfl, rfl⟩

/-- Four concrete films used to instantiate the invalid-pattern theorem. -/
def patternFilms : List TMDBMovieDetails :=
  [{ id := 1, title := "W", releaseYear := 2000 },
   { id := 2, title := "X", releaseYear := 2001 },
   { id := 3, title := "Y", releaseYear := 2002 },
   { id := 4, title := "Z", releaseYear := 2003 }]

/-- Witness for C8 at the concrete invalid pattern `(` over four films. -/
theorem title_pattern_invalid_regex_witness :
    (verify noRegex "question titles" .titlePattern { pattern := "(" } patternFilms).valid
        = false
    ∧ ∀ r ∈ (verify noRegex "question titles" .titlePattern { pattern := "(" }
          patternFilms).filmResults,
        r.passed = false ∧ r.reason = some ("Invalid regex pattern: " ++ "(") :=
  title_pattern_invalid_regex noRegex "question titles" "(" patternFilms rfl
    (by decide) (by decide)

/-- The shared-id count of the dedup filter is the cardinality of the
    intersection of the two film-id sets. -/
theorem sharedIdCount_eq_card (xs ys : List Nat) :
    sharedIdCount xs ys = (xs.toFinset ∩ ys.toFinset).card := by
  classical
  unfold sharedIdCount
  have hnd : (xs.dedup.filter (fun i => ys.contains i)).Nodup :=
    xs.nodup_dedup.filter _
  rw [← List.toFinset_card_of_nodup hnd]
  congr 1
  ext a
  simp [List.mem_filter, List.mem_dedup, List.mem_toFinset, Finset.mem_inter]

/-- `sharedIdCount` only depends on the multiset of candidate ids. -/
theorem sharedIdCount_perm (xs zs ys : List Nat) (h : xs.Perm zs) :
    sharedIdCount xs ys = sharedIdCount zs ys := by
  rw [sharedIdCount_eq_card, sharedIdCount_eq_card, List.toFinset_eq_of_perm _ _ h]

/-- The pairwise relation maintained by the dedup filter: the two groups
    share at most two distinct film ids. -/
def lowOverlap (a b : AnalyzerResult) : Prop :=
  ((filmIdsOf a).toFinset ∩ (filmIdsOf b).toFinset).card ≤ 2

theorem dedupStep_pairwise (st : List AnalyzerResult × List (List Nat))
    (g : AnalyzerResult) (h : st.1.Pairwise lowOverlap) :
    (dedupStep st g).1.Pairwise lowOverlap := by
  unfold dedupStep
  by_cases h1 : sortedFilmIds g ∈ st.2
  · simpa [h1] using h
  · rw [if_neg h1]
    by_cases h2 : st.1.any (fun acceptedGroup =>
        decide (3 ≤ sharedIdCount (sortedFilmIds g) (filmIdsOf acceptedGroup))) = true
    · simpa [h2] using h
    · rw [if_neg (by simpa using h2)]
      simp only []
      rw [List.pairwise_append]
      refine ⟨h, List.pairwise_singleton _ _, ?_⟩
      intro a ha b hb
      have hbg : b = g := List.mem_singleton.mp hb
      rw [hbg]
      have hle : sharedIdCount (sortedFilmIds g) (filmIdsOf a) ≤ 2 := by
        by_contra hgt
        exact h2 (List.any_eq_true.mpr ⟨a, ha, by simpa using Nat.lt_of_not_le hgt⟩)
      have hperm : (sortedFilmIds g).Perm (filmIdsOf g) :=
        List.perm_insertionSort (· ≤ ·) (g.films.map TMDBMovieDetails.id)
      rw [sharedIdCount_perm _ _ _ hperm, sharedIdCount_eq_card] at hle
      unfold lowOverlap
      rwa [Finset.inter_comm]

theorem foldl_dedupStep_pairwise (groups : List AnalyzerResult)
    (st : List AnalyzerResult × List (List Nat)) (h : st.1.Pairwise lowOverlap) :
    ((groups.foldl dedupStep st).1).Pairwise lowOverlap := by
  induction groups generalizing st with
  | nil => exact h
  | cons g gs ih => exact ih _ (dedupStep_pairwise st g h)

theorem foldl_dedupStep_subset (groups : List AnalyzerResult)
    (st : List AnalyzerResult × List (List Nat)) :
    ∀ g ∈ (groups.foldl dedupStep st).1, g ∈ st.1 ∨ g ∈ groups := by
  induction groups generalizing st with
  | nil => intro g hg; exact Or.inl hg
  | cons x xs ih =>
    intro g hg
    simp only [List.foldl_cons] at hg
    rcases ih (dedupStep st x) g hg with h' | h'
    · unfold dedupStep at h'
      by_cases h1 : sortedFilmIds x ∈ st.2
      · rw [if_pos h1] at h'
        exact Or.inl h'
      · rw [if_neg h1] at h'
        by_cases h2 : st.1.any (fun acceptedGroup =>
            decide (3 ≤ sharedIdCount (sortedFilmIds x) (filmIdsOf acceptedGroup))) = true
        · simp only [h2, if_pos] at h'
          exact Or.inl h'
        · rw [if_neg (by simpa using h2)] at h'
          rcases List.mem_append.mp h' with h'' | h''
          · exact Or.inl h''
          · exact Or.inr (List.mem_cons.mpr (Or.inl (List.mem_singleton.mp h'')))
    · exact Or.inr (List.mem_cons.mpr (Or.inr h'))

/-- A film with only an id (dedup cares about ids only). -/
def idMovie (n : Nat) : TMDBMovieDetails :=
  { id := n, title := "Film", releaseYear := 2000 }

/-- Concrete group A = [1,2,3,4] of the spec's dedup example. -/
def groupA : AnalyzerResult :=
  { films := [idMovie 1, idMovie 2, idMovie 3, idMovie 4],
    connection := "A", connectionType := "director", difficultyScore := 2000 }

/-- Concrete group B = [1,2,3,5] (3 ids shared with A). -/
def groupB : AnalyzerResult :=
  { films := [idMovie 1, idMovie 2, idMovie 3, idMovie 5],
    connection := "B", connectionType := "actor", difficultyScore := 4000 }

/-- Concrete group C = [1,2,5,6] (2 ids shared with A). -/
def groupC : AnalyzerResult :=
  { films := [idMovie 1, idMovie 2, idMovie 5, idMovie 6],
    connection := "C", connectionType := "genre", difficultyScore := 7000 }

/-- C2: any two distinct groups in the output of `deduplicateByFilms` share
    at most 2 film ids; when every input group has 4 distinct film ids
    (the CandidateGroup invariant) no two output groups have identical
    film-id sets; and on the concrete input A=[1,2,3,4], B=[1,2,3,5],
    C=[1,2,5,6] the filter keeps exactly A and C. -/
theorem dedup_overlap_invariant (groups : List AnalyzerResult) :
    (deduplicateByFilms groups).Pairwise lowOverlap
    ∧ ((∀ g ∈ groups, (filmIdsOf g).toFinset.card = 4) →
        (deduplicateByFilms groups).Pairwise
          (fun a b => (filmIdsOf a).toFinset ≠ (filmIdsOf b).toFinset))
    ∧ deduplicateByFilms [groupA, groupB, groupC] = [groupA, groupC] := by
  refine ⟨foldl_dedupStep_pairwise groups ([], []) List.Pairwise.nil, ?_, by decide⟩
  intro hcard
  refine List.Pairwise.imp_of_mem ?_
    (foldl_dedupStep_pairwise groups ([], []) List.Pairwise.nil)
  intro a b ha hb hlow heq
  have hma : a ∈ groups := by
    rcases foldl_dedupStep_subset groups ([], []) a ha with h | h
    · cases h
    · exact h
  have hfour : ((filmIdsOf a).toFinset ∩ (filmIdsOf b).toFinset).card = 4 := by
    rw [heq, Finset.inter_self, ← heq]
    exact hcard a hma
  unfold lowOverlap at hlow
  omega

/-- Witness for C2's conditional part at the concrete three-group input. -/
theorem dedup_overlap_invariant_witness :
    (deduplicateByFilms [groupA, groupB, groupC]).Pairwise
      (fun a b => (filmIdsOf a).toFinset ≠ (filmIdsOf b).toFinset) :=
  (dedup_overlap_invariant [groupA, groupB, groupC]).2.1 (by decide)

/-- C4: `generateGroups` fails exactly when the filtered pool has fewer
    than 20 films or no analyzers are enabled; in every other case it
    returns a result (groups plus counts) — recent-connection exclusion,
    duplicate fingerprints and high overlap are non-fatal. -/
theorem generateGroups_fatal_iff (config : GroupGeneratorConfig)
    (analyzers : List (List TMDBMovieDetails → List AnalyzerResult))
    (moviePool : List TMDBMovieDetails) (recentConnections : Option (List String)) :
    (∃ e, generateGroups config analyzers moviePool recentConnections = Except.error e)
      ↔ ((applyPoolFilters config.poolFilters moviePool).length < 20 ∨ analyzers = []) := by
  unfold generateGroups
  by_cases h1 : (applyPoolFilters config.poolFilters moviePool).length < 20
  · rw [if_pos h1]
    simp [h1]
  · rw [if_neg h1]
    by_cases h2 : analyzers.length = 0
    · rw [if_pos h2]
      have hnil : analyzers = [] := List.length_eq_zero.mp h2
      simp [hnil]
    · rw [if_neg h2]
      constructor
      · rintro ⟨e, he⟩
        exact Except.noConfusion he
      · rintro (h | h)
        · exact absurd h h1
        · exact absurd (by simp [h]) h2

/-- C6: actor discovery only looks at cast entries with billing order
    below 5: if every cast entry of person `a` in the pool has order ≥ 5,
    no discovered actor group is keyed to `a`. -/
theorem actor_high_billing_excluded (films : List TMDBMovieDetails) (a : Nat)
    (h : ∀ f ∈ films, ∀ c ∈ f.cast, c.personId = a → 5 ≤ c.order) :
    ∀ g ∈ findActorGroups films, g.verificationParams.personId ≠ some a := by
  intro g hg
  unfold findActorGroups at hg
  rcases List.mem_flatMap.mp hg with ⟨k, hk, hgk⟩
  rcases List.mem_map.mp hgk with ⟨gfs, _hgfs, hgeq⟩
  intro hcontra
  rw [← hgeq] at hcontra
  have hka : k = a := by simpa using hcontra
  subst hka
  rw [mem_uniqueKeys] at hk
  rcases List.mem_flatMap.mp hk with ⟨f, hf, hkf⟩
  rcases List.mem_map.mp hkf with ⟨c, hc, hck⟩
  have hc' := List.mem_filter.mp hc
  have hord : c.order < 5 := by simpa using hc'.2
  have := h f hf c hc'.1 hck
  omega

/-- A film whose only cast entry for person 7 is at billing order 10. -/
def billingFilm (n : Nat) : TMDBMovieDetails :=
  { id := n, title := "Film", releaseYear := 2000,
    cast := [{ personId := 7, name := "Anon", character := "Role", order := 10 }] }

/-- Four films in which person 7 appears only at billing order 10. -/
def billingPool : List TMDBMovieDetails :=
  [billingFilm 1, billingFilm 2, billingFilm 3, billingFilm 4]

/-- Witness for C6: person 7 appears in 4 pool films but only at order 10,
    so no actor group is keyed to person 7. -/
theorem actor_high_billing_excluded_witness :
    (∀ f ∈ billingPool, ∀ c ∈ f.cast, c.personId = 7 → 5 ≤ c.order)
    ∧ ∀ g ∈ findActorGroups billingPool, g.verificationParams.personId ≠ some 7 :=
  ⟨by decide, actor_high_billing_excluded billingPool 7 (by decide)⟩

/-- Filtering a flatMap over distinct keys down to the contribution of one
    key: if the predicate keeps everything produced from key `d` and
    nothing produced from any other key, the filtered flatMap is exactly
    key `d`'s output. -/
theorem filter_flatMap_keys {α : Type} (keys : List Nat) (F : Nat → List α)
    (p : α → Bool) (d : Nat) (hnd : keys.Nodup) (hd : d ∈ keys)
    (hself : (F d).filter p = F d) (hother : ∀ k, k ≠ d → (F k).filter p = []) :
    (keys.flatMap F).filter p = F d := by
  induction keys with
  | nil => cases hd
  | cons k ks ih =>
    rw [List.flatMap_cons, List.filter_append]
    rcases List.nodup_cons.mp hnd with ⟨hknotin, hndks⟩
    by_cases hk : k = d
    · subst hk
      have hempty : (ks.flatMap F).filter p = [] := by
        rw [List.filter_flatMap]
        rw [List.flatMap_eq_nil_iff]
        intro x hx
        exact hother x (fun he => hknotin (he ▸ hx))
      rw [hself, hempty, List.append_nil]
    · have hd' : d ∈ ks := by
        rcases List.mem_cons.mp hd with h | h
        · exact absurd h.symm hk
        · exact h
      rw [hother k hk, List.nil_append]
      exact ih hndks hd'

/-- C5: a director who directs exactly `N ≥ 4` pool films (the film's
    director being its first crew entry with job "Director") yields exactly
    `⌊N/4⌋` discovered groups keyed to that director, each of exactly 4
    films and each carrying `verificationParams.personId = some d`; the
    remainder of fewer than 4 films produces no group. -/
theorem director_group_count (films : List TMDBMovieDetails) (d N : Nat)
    (hN : 4 ≤ N) (hcount : (directorFilms films d).length = N) :
    ((findDirectorGroups films).filter
        (fun g => g.verificationParams.personId == some d)).length = N / 4
    ∧ ∀ g ∈ (findDirectorGroups films).filter
          (fun g => g.verificationParams.personId == some d),
        g.films.length = 4 ∧ g.verificationParams.personId = some d := by
  have hpos : 0 < (directorFilms films d).length := by omega
  have hmemd : d ∈ uniqueKeys (films.filterMap directorIdOf) := by
    rw [mem_uniqueKeys]
    rcases List.exists_mem_of_length_pos hpos with ⟨f, hf⟩
    have hf' := List.mem_filter.mp hf
    refine List.mem_filterMap.mpr ⟨f, hf'.1, ?_⟩
    exact beq_iff_eq.mp hf'.2
  have hflat : findDirectorGroups films =
      (uniqueKeys (films.filterMap directorIdOf)).flatMap (fun k =>
        (chunkIntoGroups (directorFilms films k) 4).map (fun groupFilms =>
          { films := groupFilms
            connectionType := "director"
            connectionValue := directorName films k
            category := ConnectionCategory.crew
            verificationType := VerificationType.director
            verificationParams := { personId := some k } })) := rfl
  have hfilter : (findDirectorGroups films).filter
      (fun g => g.verificationParams.personId == some d) =
      (chunkIntoGroups (directorFilms films d) 4).map (fun groupFilms =>
        { films := groupFilms
          connectionType := "director"
          connectionValue := directorName films d
          category := ConnectionCategory.crew
          verificationType := VerificationType.director
          verificationParams := { personId := some d } }) := by
    rw [hflat]
    refine filter_flatMap_keys _ _ _ d (nodup_uniqueKeys _) hmemd ?_ ?_
    · rw [List.filter_eq_self]
      intro g hg
      rcases List.mem_map.mp hg with ⟨gfs, _, hge⟩
      rw [← hge]
      exact beq_iff_eq.mpr rfl
    · intro k hk
      rw [List.filter_eq_nil_iff]
      intro g hg
      rcases List.mem_map.mp hg with ⟨gfs, _, hge⟩
      rw [← hge]
      simp [hk]
  constructor
  · rw [hfilter, List.length_map, chunkIntoGroups_length _ _ (by omega), hcount]
  · intro g hg
    rw [hfilter] at hg
    rcases List.mem_map.mp hg with ⟨gfs, hgfs, hge⟩
    rw [← hge]
    exact ⟨mem_chunkIntoGroups_length _ _ _ hgfs, rfl⟩

/-- A film directed by person `d`. -/
def directedFilm (n d : Nat) : TMDBMovieDetails :=
  { id := n, title := "Film", releaseYear := 2000,
    crew := [{ personId := d, name := "Director", job := "Director",
               department := "Directing" }] }

/-- Eight films directed by person 525. -/
def directorPool : List TMDBMovieDetails :=
  [directedFilm 1 525, directedFilm 2 525, directedFilm 3 525, directedFilm 4 525,
   directedFilm 5 525, directedFilm 6 525, directedFilm 7 525, directedFilm 8 525]

/-- Witness for C5: 8 films by director 525 yield exactly 2 director
    groups, each of 4 films keyed to person 525. -/
theorem director_group_count_witness :
    (directorFilms directorPool 525).length = 8
    ∧ ((findDirectorGroups directorPool).filter
        (fun g => g.verificationParams.personId == some 525)).length = 8 / 4
    ∧ ∀ g ∈ (findDirectorGroups directorPool).filter
          (fun g => g.verificationParams.personId == some 525),
        g.films.length = 4 ∧ g.verificationParams.personId = some 525 :=
  ⟨by decide, (director_group_count directorPool 525 8 (by decide) (by decide)).1,
    (director_group_count directorPool 525 8 (by decide) (by decide)).2⟩

/-- Every word of the title-pattern catalogue is nonempty. -/
theorem TITLE_PATTERNS_words_ne_empty :
    ∀ pt ∈ TITLE_PATTERNS, ∀ w ∈ pt.2, w ≠ "" := by decide

/-- Every director group carries the director verification descriptor and
    only films whose director is the group's key. -/
theorem findDirectorGroups_films (films : List TMDBMovieDetails) (g : DiscoveredGroup)
    (hg : g ∈ findDirectorGroups films) :
    ∃ d, g.verificationType = VerificationType.director
      ∧ g.verificationParams = { personId := some d }
      ∧ ∀ f ∈ g.films, directorIdOf f = some d := by
  rcases List.mem_flatMap.mp hg with ⟨d, _hd, hgd⟩
  rcases List.mem_map.mp hgd with ⟨gfs, hgfs, hge⟩
  subst hge
  refine ⟨d, rfl, rfl, ?_⟩
  intro f hf
  have hsub := mem_chunkIntoGroups_subset _ _ _ hgfs f hf
  exact beq_iff_eq.mp (List.mem_filter.mp hsub).2

/-- Every actor group carries the actor verification descriptor and only
    films with a top-billed cast entry for the group's key. -/
theorem findActorGroups_films (films : List TMDBMovieDetails) (g : DiscoveredGroup)
    (hg : g ∈ findActorGroups films) :
    ∃ a, g.verificationType = VerificationType.actor
      ∧ g.verificationParams = { personId := some a }
      ∧ ∀ f ∈ g.films, filmHasTopActor f a = true := by
  rcases List.mem_flatMap.mp hg with ⟨a, _ha, hga⟩
  rcases List.mem_map.mp hga with ⟨gfs, hgfs, hge⟩
  subst hge
  refine ⟨a, rfl, rfl, ?_⟩
  intro f hf
  have hsub := mem_chunkIntoGroups_subset _ _ _ hgfs f hf
  have hmem := mem_dedupByFilmId _ f hsub
  exact (List.mem_filter.mp hmem).2

/-- Every title-pattern group carries the title-contains descriptor with a
    nonempty catalogue word contained in each film's lowercased title. -/
theorem findTitlePatternGroups_films (films : List TMDBMovieDetails) (g : DiscoveredGroup)
    (hg : g ∈ findTitlePatternGroups films) :
    ∃ w, g.verificationType = VerificationType.titleContains
      ∧ g.verificationParams = { substring := some w }
      ∧ w ≠ ""
      ∧ ∀ f ∈ g.films, strIncludes (lowerString f.title) (lowerString w) = true := by
  rcases List.mem_flatMap.mp hg with ⟨pt, hpt, hgpt⟩
  rcases List.mem_flatMap.mp hgpt with ⟨w, hw, hgw⟩
  by_cases hlen : 4 ≤ (titleMatchingFilms films w).length
  · rw [if_pos hlen] at hgw
    rcases List.mem_map.mp hgw with ⟨gfs, hgfs, hge⟩
    subst hge
    refine ⟨w, rfl, rfl, TITLE_PATTERNS_words_ne_empty pt hpt w hw, ?_⟩
    intro f hf
    have hsub := mem_chunkIntoGroups_subset _ _ _ hgfs f hf
    exact (List.mem_filter.mp hsub).2
  · rw [if_neg hlen] at hgw
    cases hgw

/-- Every genre group carries the genre-includes descriptor and only films
    whose primary genre is the group's key. -/
theorem findGenreGroups_films (films : List TMDBMovieDetails) (g : DiscoveredGroup)
    (hg : g ∈ findGenreGroups films) :
    ∃ gid, g.verificationType = VerificationType.genreIncludes
      ∧ g.verificationParams = { genreId := some gid }
      ∧ ∀ f ∈ g.films, primaryGenreIdOf f = some gid := by
  rcases List.mem_flatMap.mp hg with ⟨gid, _hgid, hgg⟩
  by_cases hlen : 4 ≤ (genreFilms films gid).length
  · rw [if_pos hlen] at hgg
    rcases List.mem_map.mp hgg with ⟨gfs, hgfs, hge⟩
    subst hge
    refine ⟨gid, rfl, rfl, ?_⟩
    intro f hf
    have hsub := mem_chunkIntoGroups_subset _ _ _ hgfs f hf
    exact beq_iff_eq.mp (List.mem_filter.mp hsub).2
  · rw [if_neg hlen] at hgg
    cases hgg

/-- A film whose director id is `d` passes director verification for `d`. -/
theorem verifyDirector_passes (O : RegexOracle) (f : TMDBMovieDetails) (d : Nat)
    (h : directorIdOf f = some d) :
    (verifyFilm O f VerificationType.director { personId := some d }).passed = true := by
  unfold directorIdOf at h
  rcases Option.map_eq_some'.mp h with ⟨c, hc, hcd⟩
  unfold directorEntry at hc
  have hcmem := List.mem_of_find?_eq_some hc
  have hcjob := List.find?_some hc
  simp only [verifyFilm, verifyDirector]
  rw [List.any_eq_true]
  · exact ⟨c, hcmem, by simp [beq_iff_eq.mp hcjob, hcd]⟩

/-- A film with a top-billed cast entry for `a` passes actor verification
    for `a`. -/
theorem verifyActor_passes (O : RegexOracle) (f : TMDBMovieDetails) (a : Nat)
    (h : filmHasTopActor f a = true) :
    (verifyFilm O f VerificationType.actor { personId := some a }).passed = true := by
  unfold filmHasTopActor at h
  rcases List.any_eq_true.mp h with ⟨c, hc, hca⟩
  have hcmem : c ∈ f.cast := List.mem_of_mem_filter hc
  simp only [verifyFilm, verifyActor]
  rw [List.any_eq_true]
  exact ⟨c, hcmem, hca⟩

/-- A film whose lowercased title contains a nonempty word passes
    title-contains verification for that word. -/
theorem verifyTitleContains_passes (O : RegexOracle) (f : TMDBMovieDetails) (w : String)
    (hw : w ≠ "") (h : strIncludes (lowerString f.title) (lowerString w) = true) :
    (verifyFilm O f VerificationType.titleContains { substring := some w }).passed = true := by
  simp only [verifyFilm, verifyTitleContains]
  rw [if_neg hw]
  exact h

/-- A film whose primary genre id is `gid` passes genre verification. -/
theorem verifyGenre_passes (O : RegexOracle) (f : TMDBMovieDetails) (gid : Nat)
    (h : primaryGenreIdOf f = some gid) :
    (verifyFilm O f VerificationType.genreIncludes { genreId := some gid }).passed = true := by
  unfold primaryGenreIdOf at h
  rcases Option.map_eq_some'.mp h with ⟨g0, hg0, hgid⟩
  unfold primaryGenre at hg0
  have hg0mem : g0 ∈ f.genres := by
    cases hgen : f.genres with
    | nil => rw [hgen] at hg0; cases hg0
    | cons x xs =>
      rw [hgen] at hg0
      simp only [List.head?_cons, Option.some.injEq] at hg0
      rw [← hg0]
      exact List.mem_cons_self x xs
  simp only [verifyFilm, verifyGenre]
  rw [List.any_eq_true]
  exact ⟨g0, hg0mem, by simp [hgid]⟩

/-- C3: every group emitted by any of the four deterministic discovery
    functions passes the Verification Engine with its own verification
    type, params and films: the aggregate result is valid and every film
    passes. -/
theorem deterministic_groups_self_verifying (O : RegexOracle) (connection : String)
    (films : List TMDBMovieDetails) (g : DiscoveredGroup)
    (hg : g ∈ findDirectorGroups films ∨ g ∈ findActorGroups films
      ∨ g ∈ findTitlePatternGroups films ∨ g ∈ findGenreGroups films) :
    (verify O connection g.verificationType g.verificationParams g.films).valid = true
    ∧ ∀ r ∈ (verify O connection g.verificationType g.verificationParams g.films).filmResults,
        r.passed = true := by
  apply verify_valid_of_passed
  rcases hg with hg | hg | hg | hg
  · rcases findDirectorGroups_films films g hg with ⟨d, ht, hp, hfilms⟩
    intro f hf
    rw [ht, hp]
    exact verifyDirector_passes O f d (hfilms f hf)
  · rcases findActorGroups_films films g hg with ⟨a, ht, hp, hfilms⟩
    intro f hf
    rw [ht, hp]
    exact verifyActor_passes O f a (hfilms f hf)
  · rcases findTitlePatternGroups_films films g hg with ⟨w, ht, hp, hw, hfilms⟩
    intro f hf
    rw [ht, hp]
    exact verifyTitleContains_passes O f w hw (hfilms f hf)
  · rcases findGenreGroups_films films g hg with ⟨gid, ht, hp, hfilms⟩
    intro f hf
    rw [ht, hp]
    exact verifyGenre_passes O f gid (hfilms f hf)

/-- The single group discovered from `directorPool`'s first four films. -/
def directorWitnessGroup : DiscoveredGroup :=
  { films := [directedFilm 1 525, directedFilm 2 525, directedFilm 3 525, directedFilm 4 525]
    connectionType := "director"
    connectionValue := "Director"
    category := ConnectionCategory.crew
    verificationType := VerificationType.director
    verificationParams := { personId := some 525 } }

/-- Witness for C3 at a concrete pool: a discovered director group passes
    verification with its own descriptor. -/
theorem deterministic_groups_self_verifying_witness :
    directorWitnessGroup ∈ findDirectorGroups directorPool
    ∧ (verify noRegex "Directed by Director" directorWitnessGroup.verificationType
        directorWitnessGroup.verificationParams directorWitnessGroup.films).valid = true :=
  ⟨by decide,
    (deterministic_groups_self_verifying noRegex "Directed by Director" directorPool
      directorWitnessGroup (Or.inl (by decide))).1⟩

/-- The prepared AI view of the pool agrees with the pool on film ids at
    every position. -/
theorem prepare_id_agree (moviePool : List TMDBMovieDetails) (i : Int) :
    (movieAt (prepareMoviesForAI moviePool) i).map MovieForAI.id
      = (detailAt moviePool i).map TMDBMovieDetails.id := by
  unfold movieAt detailAt prepareMoviesForAI
  by_cases hi : i < 0
  · simp [hi]
  · rw [if_neg hi, if_neg hi, List.getElem?_map]
    cases moviePool[i.toNat]? <;> simp

/-- Two accepted AI groups have no film id in common. -/
def aiGroupsDisjoint (g1 g2 : AIGeneratedGroup) : Prop :=
  ∀ f1 ∈ g1.films, ∀ f2 ∈ g2.films, f1.id ≠ f2.id

/-- The loop invariant of `processAIResponse`: every accepted film id is
    recorded in `usedFilmIds`, and accepted groups are pairwise disjoint. -/
def procInv (st : ProcessState) : Prop :=
  (∀ g ∈ st.validGroups, ∀ f ∈ g.films, f.id ∈ st.usedFilmIds)
  ∧ st.validGroups.Pairwise aiGroupsDisjoint

/-- A `contains = false` check means the element is absent. -/
theorem not_mem_of_contains_false (l : List Nat) (a : Nat)
    (h : l.contains a = false) : a ∉ l := by
  intro hm
  simp only [List.contains_eq_any_beq] at h
  have h2 := (List.any_eq_false.mp h) a hm
  simp at h2

theorem processStep_inv (O : RegexOracle) (moviePool : List TMDBMovieDetails)
    (st : ProcessState) (a : AIGroupResponse) (h : procInv st) :
    procInv (processStep O (prepareMoviesForAI moviePool) moviePool st a) := by
  unfold processStep
  by_cases h4 : (a.filmIndices.filter
      (validIndex (prepareMoviesForAI moviePool) st.usedFilmIds)).length ≠ 4
  · rw [if_pos h4]
    exact h
  · rw [if_neg h4]
    cases hvt : a.verificationType with
    | none => simpa only [hvt] using h
    | some vt =>
      cases hvp : a.verificationParams with
      | none => simpa only [hvt, hvp] using h
      | some vp =>
        simp only [hvt, hvp]
        by_cases hval : (verify O a.connection vt vp
            ((a.filmIndices.filter
              (validIndex (prepareMoviesForAI moviePool) st.usedFilmIds)).filterMap
              (detailAt moviePool))).valid = false
        · rw [if_pos hval]
          exact h
        · rw [if_neg hval]
          -- accept branch
          have hfreshId : ∀ x ∈ (a.filmIndices.filter
              (validIndex (prepareMoviesForAI moviePool) st.usedFilmIds)).filterMap
              (fun i => (detailAt moviePool i).map TMDBMovieDetails.id),
              x ∉ st.usedFilmIds := by
            intro x hx
            rcases List.mem_filterMap.mp hx with ⟨i, hi, hdet⟩
            rcases Option.map_eq_some'.mp hdet with ⟨m, hm, hmid⟩
            have hvalid := (List.mem_filter.mp hi).2
            unfold validIndex at hvalid
            simp only [Bool.and_eq_true] at hvalid
            obtain ⟨-, hv3⟩ := hvalid
            cases hmf : movieAt (prepareMoviesForAI moviePool) i with
            | none => rw [hmf] at hv3; cases hv3
            | some mf =>
              rw [hmf] at hv3
              have hv3' : (!(st.usedFilmIds.contains mf.id)) = true := hv3
              have hnc : st.usedFilmIds.contains mf.id = false := by
                simpa using hv3'
              have hids := prepare_id_agree moviePool i
              rw [hmf, hm] at hids
              simp only [Option.map_some', Option.some.injEq] at hids
              rw [← hmid, ← hids]
              exact not_mem_of_contains_false _ _ hnc
          have hfilmId : ∀ f ∈ (a.filmIndices.filter
              (validIndex (prepareMoviesForAI moviePool) st.usedFilmIds)).filterMap
              (fun i => (detailAt moviePool i).map movieToFilm),
              f.id ∈ (a.filmIndices.filter
                (validIndex (prepareMoviesForAI moviePool) st.usedFilmIds)).filterMap
                (fun i => (detailAt moviePool i).map TMDBMovieDetails.id) := by
            intro f hf
            rcases List.mem_filterMap.mp hf with ⟨i, hi, hdet⟩
            rcases Option.map_eq_some'.mp hdet with ⟨m, hm, hmf⟩
            refine List.mem_filterMap.mpr ⟨i, hi, ?_⟩
            rw [hm, ← hmf]
            rfl
          constructor
          · intro g hg f hf
            rcases List.mem_append.mp hg with hgold | hgnew
            · exact List.mem_append.mpr (Or.inl (h.1 g hgold f hf))
            · have hge := List.mem_singleton.mp hgnew
              rw [hge] at hf
              exact List.mem_append.mpr (Or.inr (hfilmId f hf))
          · rw [List.pairwise_append]
            refine ⟨h.2, List.pairwise_singleton _ _, ?_⟩
            intro gOld hgOld gNew hgNew
            have hge := List.mem_singleton.mp hgNew
            intro f1 hf1 f2 hf2
            have hf1used : f1.id ∈ st.usedFilmIds := h.1 gOld hgOld f1 hf1
            rw [hge] at hf2
            have hf2fresh : f2.id ∉ st.usedFilmIds := hfreshId f2.id (hfilmId f2 hf2)
            intro heq
            rw [heq] at hf1used
            exact hf2fresh hf1used

theorem foldl_processStep_inv (O : RegexOracle) (moviePool : List TMDBMovieDetails)
    (aiGroups : List AIGroupResponse) (st : ProcessState) (h : procInv st) :
    procInv (aiGroups.foldl (processStep O (prepareMoviesForAI moviePool) moviePool) st) := by
  induction aiGroups generalizing st with
  | nil => exact h
  | cons a as ih => exact ih _ (processStep_inv O moviePool st a h)

/-- C10: within one `processAIResponse` run (as called by `generateGroups`,
    where the AI view is `prepareMoviesForAI` of the pool), the accepted
    groups are pairwise disjoint in film ids: a film id used by one
    accepted group never appears in a later accepted group. -/
theorem processAIResponse_groups_disjoint (O : RegexOracle)
    (aiGroups : List AIGroupResponse) (moviePool : List TMDBMovieDetails) :
    ((processAIResponse O aiGroups (prepareMoviesForAI moviePool)
        moviePool).validGroups).Pairwise aiGroupsDisjoint :=
  (foldl_processStep_inv O moviePool aiGroups
    { usedFilmIds := [], validGroups := [], verificationRejected := 0 }
    ⟨fun g hg => absurd hg (List.not_mem_nil g), List.Pairwise.nil⟩).2

/-- Four pool films for the missing-descriptor example. -/
def descPool : List TMDBMovieDetails :=
  [{ id := 11, title := "P", releaseYear := 1990 },
   { id := 12, title := "Q", releaseYear := 1991 },
   { id := 13, title := "R", releaseYear := 1992 },
   { id := 14, title := "S", releaseYear := 1993 }]

/-- A suggested group with four in-range film indices but no verification
    descriptor (`verificationType` and `verificationParams` both absent). -/
def noDescriptorGroup : AIGroupResponse :=
  { connection := "Films sharing an unprovable theme"
    filmIndices := [0, 1, 2, 3]
    difficulty := DifficultyLevel.medium
    explanation := "claims a theme" }

/-- C1 counterexample: the Claude-client `verifyAIGroups` does not reject a
    group lacking a verification descriptor — the group is present in the
    returned groups (marked `verified = false`) and the filtered counter
    stays 0, contradicting "absent from the returned valid groups" and
    "the counter is incremented by one". -/
theorem missing_descriptor_kept_by_verifyAIGroups :
    (verifyAIGroups noRegex [noDescriptorGroup] descPool).1 =
      [{ noDescriptorGroup with
          verified := some false
          verificationIssues := some ["No verification params provided"] }]
    ∧ (verifyAIGroups noRegex [noDescriptorGroup] descPool).2 = 0 := by decide

/-- C1 (amended): a candidate group without a verification descriptor never
    reaches the accepted output of `AIGroupGenerator.processAIResponse` —
    its rejection counter grows by one exactly when the group has four
    usable film indices — while the Claude-client `verifyAIGroups` instead
    keeps such a group (with four resolvable films) in its output, marked
    `verified = false` with issue "No verification params provided", without
    incrementing its filtered counter. -/
theorem missing_descriptor_two_paths (O : RegexOracle) (moviesForAI : List MovieForAI)
    (originalMovies : List TMDBMovieDetails) (st : ProcessState)
    (st2 : List AIGroupResponse × Nat) (a : AIGroupResponse)
    (hmiss : a.verificationType = none ∨ a.verificationParams = none) :
    ((processStep O moviesForAI originalMovies st a).validGroups = st.validGroups
      ∧ (processStep O moviesForAI originalMovies st a).verificationRejected =
          st.verificationRejected +
            (if (a.filmIndices.filter (validIndex moviesForAI st.usedFilmIds)).length = 4
             then 1 else 0))
    ∧ ((a.filmIndices.filterMap (detailAt originalMovies)).length = 4 →
        verifyAIGroupsStep O originalMovies st2 a =
          (st2.1 ++ [{ a with
              verified := some false
              verificationIssues := some ["No verification params provided"] }], st2.2)) := by
  constructor
  · unfold processStep
    by_cases h4 : (a.filmIndices.filter (validIndex moviesForAI st.usedFilmIds)).length ≠ 4
    · rw [if_pos h4]
      refine ⟨rfl, ?_⟩
      rw [if_neg (by omega)]
      omega
    · rw [if_neg h4]
      have hc : (a.filmIndices.filter (validIndex moviesForAI st.usedFilmIds)).length = 4 := by
        omega
      cases hvt : a.verificationType with
      | none =>
        cases hvp : a.verificationParams with
        | none => exact ⟨rfl, by rw [if_pos hc]⟩
        | some vp => exact ⟨rfl, by rw [if_pos hc]⟩
      | some vt =>
        cases hvp : a.verificationParams with
        | none => exact ⟨rfl, by rw [if_pos hc]⟩
        | some vp =>
          rcases hmiss with hm | hm
          · rw [hvt] at hm; cases hm
          · rw [hvp] at hm; cases hm
  · intro hlen
    unfold verifyAIGroupsStep
    rw [if_neg (by omega)]
    cases hvt : a.verificationType with
    | none =>
      cases hvp : a.verificationParams with
      | none => rfl
      | some vp => rfl
    | some vt =>
      cases hvp : a.verificationParams with
      | none => rfl
      | some vp =>
        rcases hmiss with hm | hm
        · rw [hvt] at hm; cases hm
        · rw [hvp] at hm; cases hm

/-- Witness for the amended C1 at a concrete missing-descriptor group. -/
theorem missing_descriptor_two_paths_witness :
    (processStep noRegex (prepareMoviesForAI descPool) descPool
        { usedFilmIds := [], validGroups := [], verificationRejected := 0 }
        noDescriptorGroup).validGroups = []
    ∧ verifyAIGroupsStep noRegex descPool ([], 0) noDescriptorGroup =
        ([{ noDescriptorGroup with
            verified := some false
            verificationIssues := some ["No verification params provided"] }], 0) :=
  ⟨(missing_descriptor_two_paths noRegex (prepareMoviesForAI descPool) descPool
      { usedFilmIds := [], validGroups := [], verificationRejected := 0 } ([], 0)
      noDescriptorGroup (Or.inl rfl)).1.1,
   (missing_descriptor_two_paths noRegex (prepareMoviesForAI descPool) descPool
      { usedFilmIds := [], validGroups := [], verificationRejected := 0 } ([], 0)
      noDescriptorGroup (Or.inl rfl)).2 (by decide)⟩

/-- Witness for C4: with an empty pool (filtered size 0 < 20) the
    orchestrator fails, by the fatal-condition characterization. -/
theorem generateGroups_fatal_iff_witness :
    ∃ e, generateGroups { maxGroupsPerBatch := 50, poolFilters := none } [] [] none =
      Except.error e :=
  (generateGroups_fatal_iff { maxGroupsPerBatch := 50, poolFilters := none } [] [] none).mpr
    (Or.inl (by decide))

/-- Witness for C7: the 1989/1980 boundary instance, via the
    characterization theorem. -/
theorem decade_verification_floor_witness :
    (verifyFilm noRegex { id := 100, title := "Boundary", releaseYear := 1989 }
      .decade { decade := some 1980 }).passed = true :=
  (decade_verification_floor noRegex
    { id := 100, title := "Boundary", releaseYear := 1989 } 1980).2.1
